import Mathlib

/-!
Verification development for the hala-io asynchronous I/O runtime.

The definitions below are shallow embeddings of the Rust sources:
machine integers are modelled as `Nat` with explicit `% 2 ^ w` where
wrap-around matters, `Duration` values are modelled by their nanosecond
count as a `Nat`, fallible operations return `Except`, and stateful code
is modelled by explicit state passing.  External collaborators (the
`quiche` protocol engine, the OS poll primitive, wall-clock instants)
appear as oracle parameters so that the repository's own control flow is
translated verbatim.
-/

namespace Hala

/-- Polling outcome of a readiness predicate, mirroring `std::task::Poll`. -/
inductive PollR (α : Type) : Type
  | Ready (a : α)
  | Pending
deriving DecidableEq, Repr

/-- Error kinds of `std::io::ErrorKind` that the embedded code produces.
`mapped c` stands for the image of a quiche error under `into_io_error`. -/
inductive IoErr : Type
  | brokenPipe
  | notFound
  | permissionDenied
  | invalidInput
  | mapped (code : Nat)
deriving DecidableEq, Repr

/-! ## Interest bitset and OS events

Modelled from the spec: the `Interest` type lives in the driver module
that is not under `src/`; the spec describes it as "a bitset over
{Readable, Writable}", so it is embedded as a pair of booleans with
bitwise xor and union, which is what the bitflags operations `|`, `^`
and `contains` compute on a two-bit set. -/
structure Interest : Type where
  readable : Bool
  writable : Bool
deriving DecidableEq, Repr

/-- Bitwise xor of two interest bitsets, the `^` operator on bitflags. -/
def Interest.xorI (a b : Interest) : Interest :=
  ⟨xor a.readable b.readable, xor a.writable b.writable⟩

/-- Bitwise union of two interest bitsets, the `|` operator on bitflags. -/
def Interest.orI (a b : Interest) : Interest :=
  ⟨a.readable || b.readable, a.writable || b.writable⟩

/-- The `Interest::Readable` constant. -/
def Interest.readableBit : Interest := ⟨true, false⟩

/-- The `Interest::Writable` constant. -/
def Interest.writableBit : Interest := ⟨false, true⟩

/-- An OS readiness event as delivered by the `mio` poll primitive:
a token plus the two readiness flags the OS reported. -/
structure OsEvent : Type where
  token : Nat
  readable : Bool
  writable : Bool
deriving DecidableEq, Repr

/-- Translation of one OS event into a hala interest bitset, embedded
from the body of the event loop in `BasicMioPoller::poll_once`
(`src/hala-io-driver/src/mio/poller.rs` lines 180-186): start from
`Readable | Writable`, then xor away `Readable` when the event is not
readable, otherwise xor away `Writable` when the event is not writable. -/
def eventInterests (ev : OsEvent) : Interest :=
  let interests := Interest.orI Interest.readableBit Interest.writableBit
  if !ev.readable then Interest.xorI interests Interest.readableBit
  else if !ev.writable then Interest.xorI interests Interest.writableBit
  else interests

/-- Result of one `poll_once` call: the timeout handed to the OS wait
plus the combined readiness list. -/
structure PollOnceOutcome : Type where
  osWaitTimeout : Nat
  events : List (Nat × Interest)
deriving DecidableEq, Repr

/-- Embedding of `BasicMioPoller::poll_once`
(`src/hala-io-driver/src/mio/poller.rs` lines 170-198).  The OS wait and
the timer-wheel advance are oracles: `osEvents` is the event list the OS
delivers for the chosen wait, and `expiredTokens` is the token list the
wheel tick returns (the wheel advance depends on wall-clock elapsed
time, which the embedding abstracts).  The code computes the wait as
`timeout.unwrap_or(self.tick_duration)`, maps each OS event through the
interest translation, and appends each expired timer token paired with
`Interest::Readable`. -/
def pollOnce (timeout : Option Nat) (tickDuration : Nat)
    (osEvents : List OsEvent) (expiredTokens : List Nat) : PollOnceOutcome :=
  { osWaitTimeout := timeout.getD tickDuration
    events :=
      osEvents.map (fun ev => (ev.token, eventInterests ev)) ++
      expiredTokens.map (fun t => (t, Interest.readableBit)) }

/-! ## Timer arithmetic and timer registration -/

/-- Embedding of `duration_to_ticks`
(`src/hala-io-driver/src/mio/poller.rs` lines 16-27).  Durations are
their nanosecond counts; the u128 division is exact on `Nat`; the Rust
code casts the u128 tick count to `u32` before multiplying it back with
the tick duration, so the comparison uses `ticks % 2 ^ 32`.  The
`Duration * u32` multiplication is modelled as exact `Nat`
multiplication (the Rust version would panic rather than wrap on
overflow). -/
def duration_to_ticks (duration tickDuration : Nat) (roundUp : Bool) : Nat :=
  let ticks := duration / tickDuration
  if roundUp && decide (tickDuration * (ticks % 2 ^ 32) < duration) then ticks + 1
  else ticks

/-- Modelled from the spec: the hashed timer wheel comes from the
`timewheel` crate, which is not under `src/`.  Spec §4.2: "A hashed
wheel with a fixed number of slots (2048) ... The wheel records
`(slot, token)`."  `tick` is the wheel's current tick counter and
`steps` its slot count. -/
structure TimeWheelModel : Type where
  steps : Nat
  tick : Nat
  entries : List (Nat × Nat)
deriving DecidableEq, Repr

/-- Modelled from the spec: `TimeWheel::add` places the token into the
slot reached `ticks` ticks from now and returns that slot. -/
def TimeWheelModel.add (w : TimeWheelModel) (ticks token : Nat) :
    Nat × TimeWheelModel :=
  let slot := (w.tick + ticks) % w.steps
  (slot, { w with entries := (slot, token) :: w.entries })

/-- State of a `MioTimeout` handle
(`src/hala-io-driver/src/mio/poller.rs` lines 29-34), with instants as
`Nat` timestamps. -/
structure MioTimeoutM : Type where
  duration : Nat
  startTime : Option Nat
  slot : Option Nat
  tickDuration : Option Nat
deriving DecidableEq, Repr

/-- Outcome of registering a `Timeout` handle: either the `assert!` in
the register arm fired (a Rust panic, which aborts the call before any
wheel mutation), or the updated handle state plus the updated wheel. -/
inductive RegisterTimeoutOutcome : Type
  | assertFailed
  | ok (t : MioTimeoutM) (w : TimeWheelModel)
deriving DecidableEq, Repr

/-- Embedding of the `Description::Timeout` arm of
`BasicMioPoller::register`
(`src/hala-io-driver/src/mio/poller.rs` lines 228-256):
`assert!(!timeout.duration.is_zero())`, convert the duration to a
rounded-up tick count, stamp `start_time` and `tick_duration`, add the
token to the wheel, and record the returned slot.  `now` is the oracle
for `Instant::now()`. -/
def registerTimeout (t : MioTimeoutM) (tickDuration now token : Nat)
    (w : TimeWheelModel) : RegisterTimeoutOutcome :=
  if t.duration = 0 then .assertFailed
  else
    let ticks := duration_to_ticks t.duration tickDuration true
    let t' : MioTimeoutM :=
      { t with startTime := some now, tickDuration := some tickDuration }
    let sw := w.add ticks token
    .ok { t' with slot := some sw.1 } sw.2

/-! ## Process-wide driver registration -/

/-- Driver instances are identified by an opaque id. -/
abbrev DriverId := Nat

/-- Embedding of `register_driver`
(`src/hala-io-util/src/current/driver.rs` lines 23-30): `OnceLock::set`
succeeds exactly when the slot is empty, and a failed set leaves the
previously stored driver in place and surfaces `PermissionDenied`. -/
def registerDriver (slot : Option DriverId) (d : DriverId) :
    Except IoErr Unit × Option DriverId :=
  match slot with
  | none => (.ok (), some d)
  | some old => (.error .permissionDenied, some old)

/-- Embedding of `get_driver`
(`src/hala-io-util/src/current/driver.rs` lines 12-20): return the
stored driver or fail with `NotFound`. -/
def getDriver (slot : Option DriverId) : Except IoErr DriverId :=
  match slot with
  | some d => .ok d
  | none => .error .notFound

/-- Folding a sequence of `register_driver` calls over the one-shot
slot, collecting each call's result and the final slot content. -/
def runRegisterSeq (slot : Option DriverId) :
    List DriverId → List (Except IoErr Unit) × Option DriverId
  | [] => ([], slot)
  | d :: ds =>
    let r := registerDriver slot d
    let rest := runRegisterSeq r.2 ds
    (r.1 :: rest.1, rest.2)

/-! ## TCP constructor error paths -/

/-- Handle descriptions, from the spec's data model for `fd_open`. -/
inductive Descr : Type
  | file
  | tcpListener
  | tcpStream
  | udpSocket
  | timeoutHandle
  | poller
deriving DecidableEq, Repr

/-- Driver actions a TCP constructor performs, recorded as a trace:
`open` notes the description and the returned fd, `registerCmd` the fd
passed to `Cmd::Register`, `close` the fd passed to `fd_close`. -/
inductive FdAction : Type
  | open (d : Descr) (fd : Nat)
  | registerCmd (fd : Nat)
  | close (fd : Nat)
deriving DecidableEq, Repr

/-- Handles still open after a trace: `open` pushes the fd, `close`
removes it. -/
def liveAfter (tr : List FdAction) : List Nat :=
  tr.foldl
    (fun acc a =>
      match a with
      | .open _ fd => fd :: acc
      | .registerCmd _ => acc
      | .close fd => acc.filter (fun x => x ≠ fd))
    []

/-- Embedding of `TcpStream::new_with`
(`src/crates/net/tcp/src/stream.rs` lines 28-44): issue `Cmd::Register`
for the given fd; on error close the fd (ignoring the close result) and
return the register error, otherwise return the stream's fd.  `regRes`
is the oracle for the driver's answer to the register command. -/
def tcpStreamNewWith (fd : Nat) (regRes : Except IoErr Unit) :
    Except IoErr Nat × List FdAction :=
  match regRes with
  | .error e => (.error e, [.registerCmd fd, .close fd])
  | .ok _ => (.ok fd, [.registerCmd fd])

/-- Embedding of `TcpListener::bind_with`
(`src/crates/net/tcp/src/listener.rs` lines 34-58): resolve the local
addresses, `fd_open` a TcpListener with bind flags, then register it
with the poller for `Readable`; on a register error close the fresh fd
(ignoring the close result) and return the error.  `resolveRes` and
`openRes` are oracles for address resolution and `fd_open`. -/
def tcpListenerBindWith (resolveRes : Except IoErr Unit)
    (openRes : Except IoErr Nat) (regRes : Nat → Except IoErr Unit) :
    Except IoErr Nat × List FdAction :=
  match resolveRes with
  | .error e => (.error e, [])
  | .ok _ =>
    match openRes with
    | .error e => (.error e, [])
    | .ok fd =>
      match regRes fd with
      | .error e => (.error e, [.open .tcpListener fd, .registerCmd fd, .close fd])
      | .ok _ => (.ok fd, [.open .tcpListener fd, .registerCmd fd])

/-! ## QUIC connection state

The foreign `quiche` engine is synchronous; the embedding abstracts it
as a state type `S` together with an oracle table `QuicheApi S` whose
fields mirror the engine calls the connection state machine issues.
Queries (`is_closed`, `timeout`, `readable`, `writable`, `trace_id`)
take the engine by shared reference in Rust and so are pure functions of
`S`; mutating calls return the successor engine state. -/

/-- Outcome of `quiche::Connection::send`: `(size, send_info)` on
success (the `SendInfo` is abstracted as a `Nat`), `Error::Done`, or
another quiche error. -/
inductive SendOutcome : Type
  | ok (n info : Nat)
  | done
  | err (code : Nat)
deriving DecidableEq, Repr

/-- Outcome of `quiche::Connection::recv`. -/
inductive RecvOutcome : Type
  | ok (n : Nat)
  | done
  | err (code : Nat)
deriving DecidableEq, Repr

/-- Outcome of `quiche::Connection::stream_send`. -/
inductive StreamSendOutcome : Type
  | ok (n : Nat)
  | done
  | err (code : Nat)
deriving DecidableEq, Repr

/-- Outcome of `quiche::Connection::stream_recv`: `(size, fin)` on
success. -/
inductive StreamRecvOutcome : Type
  | ok (n : Nat) (fin : Bool)
  | done
  | err (code : Nat)
deriving DecidableEq, Repr

/-- Oracle table for the foreign quiche engine over engine states `S`.
`localPoller` is the oracle for `get_local_poller()` used when the send
path creates a `Sleep`. -/
structure QuicheApi (S : Type) : Type where
  isClosed : S → Bool
  traceId : S → String
  send : S → SendOutcome × S
  recv : S → RecvOutcome × S
  streamSend : S → Nat → Bool → StreamSendOutcome × S
  streamRecv : S → Nat → StreamRecvOutcome × S
  timeout : S → Option Nat
  onTimeout : S → S
  readable : S → List Nat
  writable : S → List Nat
  localPoller : Except IoErr Unit

/-- Mapping of a quiche error to an io error, standing in for
`into_io_error` (`src/hala-net/src/errors.rs`, not under `src/`; spec:
"Errors are mapped"). -/
def into_io_error (code : Nat) : IoErr := .mapped code

/-- Event vocabulary of the connection mediator, from `QuicConnEvents`
(`src/hala-net/src/quic/conn_state.rs` lines 46-54). -/
inductive QuicConnEvents : Type
  | Send (tid : String)
  | Recv (tid : String)
  | StreamSend (tid : String) (id : Nat)
  | StreamRecv (tid : String) (id : Nat)
  | Accept (tid : String)
  | OpenStream
deriving DecidableEq, Repr

/-- Interior state of the mediator, from `QuicConnState`
(`src/hala-net/src/quic/conn_state.rs` lines 19-26), extended with an
observation trace: `notified` records every `notify` call in order and
`wokenAll` counts the `wakeup_all` calls, so that theorems can speak
about the notifications a state transition produced.  The `HashSet` of
opened streams is modelled as a duplicate-free list, the `VecDeque` of
incoming streams as a list with `push_back` appending and `pop_front`
taking the head. -/
structure ConnState (S : Type) : Type where
  engine : S
  openedStreams : List Nat
  incomingStreams : List Nat
  notified : List QuicConnEvents
  wokenAll : Nat
deriving DecidableEq, Repr

/-- The mediator's `notify`: record the event. -/
def notifyE {S : Type} (st : ConnState S) (e : QuicConnEvents) : ConnState S :=
  { st with notified := st.notified ++ [e] }

/-- Embedding of `handle_close`
(`src/hala-net/src/quic/conn_state.rs` lines 90-92): `wakeup_all`. -/
def handleClose {S : Type} (st : ConnState S) : ConnState S :=
  { st with wokenAll := st.wokenAll + 1 }

/-- Embedding of `handle_accept`
(`src/hala-net/src/quic/conn_state.rs` lines 56-69): when the stream id
is not yet in `opened_streams`, insert it, push it onto
`incoming_streams`, and notify `Accept`. -/
def handleAccept {S : Type} (api : QuicheApi S) (st : ConnState S)
    (id : Nat) : ConnState S :=
  if id ∈ st.openedStreams then st
  else
    notifyE
      { st with
        openedStreams := id :: st.openedStreams
        incomingStreams := st.incomingStreams ++ [id] }
      (.Accept (api.traceId st.engine))

/-- One loop of `handle_stream` over a stream-id list: each id goes
through `handle_accept` and then a `tag` notification (`StreamRecv` for
the readable loop, `StreamSend` for the writable loop). -/
def streamNotifyFold {S : Type} (api : QuicheApi S)
    (tag : String → Nat → QuicConnEvents) (l : List Nat)
    (st : ConnState S) : ConnState S :=
  l.foldl
    (fun acc id => notifyE (handleAccept api acc id) (tag (api.traceId acc.engine) id))
    st

/-- Embedding of `handle_stream`
(`src/hala-net/src/quic/conn_state.rs` lines 71-88): loop over
`readable()` with `handle_accept` plus `StreamRecv` notification, then
over `writable()` with `handle_accept` plus `StreamSend` notification.
The engine is only read here, so both iterator snapshots come from the
entry engine state. -/
def handleStream {S : Type} (api : QuicheApi S) (st : ConnState S) : ConnState S :=
  streamNotifyFold api .StreamSend (api.writable st.engine)
    (streamNotifyFold api .StreamRecv (api.readable st.engine) st)

/-- Embedding of the `recv` readiness predicate
(`src/hala-net/src/quic/conn_state.rs` lines 200-251): on a closed
engine wake all and fail with `BrokenPipe`; otherwise feed the datagram,
and on success either wake all (engine became closed) or notify `Send`
and run the stream-notify step; on `Done` return `Pending` (waking all
first when the engine became closed); on another error wake all when
closed and return the mapped error. -/
def recvPoll {S : Type} (api : QuicheApi S) (tid : String)
    (st : ConnState S) : PollR (Except IoErr Nat) × ConnState S :=
  if api.isClosed st.engine then (.Ready (.error .brokenPipe), handleClose st)
  else
    match api.recv st.engine with
    | (.ok n, e') =>
      let st' := { st with engine := e' }
      if api.isClosed e' then (.Ready (.ok n), handleClose st')
      else (.Ready (.ok n), handleStream api (notifyE st' (.Send tid)))
    | (.done, e') =>
      let st' := { st with engine := e' }
      if api.isClosed e' then (.Pending, handleClose st') else (.Pending, st')
    | (.err c, e') =>
      let st' := { st with engine := e' }
      if api.isClosed e' then (.Ready (.error (into_io_error c)), handleClose st')
      else (.Ready (.error (into_io_error c)), st')

/-- Embedding of the `stream_send` readiness predicate
(`src/hala-net/src/quic/conn_state.rs` lines 254-316): on a closed
engine wake all and fail with `BrokenPipe`; on engine success notify
`Send` and, when `fin` is set, remove the stream id from
`opened_streams`; on `Done` fail with `BrokenPipe` if the engine is
closed (waking all) and otherwise return `Pending`; on another error
remove the id when `fin` is set, wake all when closed, and return the
mapped error. -/
def streamSendPoll {S : Type} (api : QuicheApi S) (tid : String)
    (st : ConnState S) (id : Nat) (fin : Bool) :
    PollR (Except IoErr Nat) × ConnState S :=
  if api.isClosed st.engine then (.Ready (.error .brokenPipe), handleClose st)
  else
    match api.streamSend st.engine id fin with
    | (.ok n, e') =>
      let st1 := notifyE { st with engine := e' } (.Send tid)
      let st2 :=
        if fin then
          { st1 with openedStreams := st1.openedStreams.filter (fun x => x ≠ id) }
        else st1
      (.Ready (.ok n), st2)
    | (.done, e') =>
      let st1 := { st with engine := e' }
      if api.isClosed e' then (.Ready (.error .brokenPipe), handleClose st1)
      else (.Pending, st1)
    | (.err c, e') =>
      let st1 := { st with engine := e' }
      let st2 :=
        if fin then
          { st1 with openedStreams := st1.openedStreams.filter (fun x => x ≠ id) }
        else st1
      if api.isClosed e' then (.Ready (.error (into_io_error c)), handleClose st2)
      else (.Ready (.error (into_io_error c)), st2)

/-- Embedding of the `stream_recv` readiness predicate
(`src/hala-net/src/quic/conn_state.rs` lines 319-374). -/
def streamRecvPoll {S : Type} (api : QuicheApi S) (tid : String)
    (st : ConnState S) (id : Nat) :
    PollR (Except IoErr (Nat × Bool)) × ConnState S :=
  if api.isClosed st.engine then (.Ready (.error .brokenPipe), handleClose st)
  else
    match api.streamRecv st.engine id with
    | (.ok n fin, e') =>
      let st1 := { st with engine := e' }
      if api.isClosed e' then (.Ready (.ok (n, fin)), handleClose st1)
      else (.Ready (.ok (n, fin)), notifyE (notifyE st1 (.Recv tid)) (.Send tid))
    | (.done, e') =>
      let st1 := { st with engine := e' }
      if api.isClosed e' then (.Ready (.error .brokenPipe), handleClose st1)
      else (.Pending, st1)
    | (.err c, e') =>
      let st1 := { st with engine := e' }
      if api.isClosed e' then (.Ready (.error (into_io_error c)), handleClose st1)
      else (.Ready (.error (into_io_error c)), st1)

/-- Embedding of `AtomicU64::fetch_add(4, SeqCst)` on the stream id
seed (`src/hala-net/src/quic/conn_state.rs` line 378): return the prior
value and store the wrapped sum.  The stored seed is kept below
`2 ^ 64`. -/
def fetchAdd4 (seed : Nat) : Nat × Nat :=
  (seed, (seed + 4) % 2 ^ 64)

/-- Embedding of the `open_stream` readiness predicate
(`src/hala-net/src/quic/conn_state.rs` lines 380-399), for the stream id
allocated before entering the mediator: on a closed engine fail with
`BrokenPipe` (without waking anyone), otherwise notify `Send` and return
the stream id. -/
def openStreamPoll {S : Type} (api : QuicheApi S) (tid : String)
    (st : ConnState S) (id : Nat) : PollR (Except IoErr Nat) × ConnState S :=
  if api.isClosed st.engine then (.Ready (.error .brokenPipe), st)
  else (.Ready (.ok id), notifyE st (.Send tid))

/-- Embedding of the `accept` readiness predicate
(`src/hala-net/src/quic/conn_state.rs` lines 436-449): on a closed
engine return `Ready(None)`, otherwise pop the front incoming stream or
return `Pending`. -/
def acceptPoll {S : Type} (api : QuicheApi S) (st : ConnState S) :
    PollR (Option Nat) × ConnState S :=
  if api.isClosed st.engine then (.Ready none, st)
  else
    match st.incomingStreams with
    | id :: rest => (.Ready (some id), { st with incomingStreams := rest })
    | [] => (.Pending, st)

/-- Modelled from the spec: `Sleep` lives in `hala-io-util`, which is
not under `src/`.  Spec §8 invariant 2 places a timer's expiry between
`d` and `d + tick_duration` after its registration, so the first poll of
a freshly created sleep with positive duration is `Pending` (the timer
cannot already have expired at the instant it is armed). -/
def sleepFreshPoll (_d : Nat) : PollR Unit :=
  .Pending

/-- Decidable equality for `Except` results, used to evaluate witness
statements about concrete send outcomes. -/
instance {ε α : Type} [DecidableEq ε] [DecidableEq α] :
    DecidableEq (Except ε α) := fun x y =>
  match x, y with
  | .ok a, .ok b =>
    if h : a = b then .isTrue (by rw [h])
    else .isFalse (by intro hc; cases hc; exact h rfl)
  | .ok _, .error _ => .isFalse (by intro hc; cases hc)
  | .error _, .ok _ => .isFalse (by intro hc; cases hc)
  | .error a, .error b =>
    if h : a = b then .isTrue (by rw [h])
    else .isFalse (by intro hc; cases hc; exact h rfl)

/-- Result of the send loop: `ready` mirrors `Poll::Ready`, `pending`
mirrors `Poll::Pending` and carries the sleep the closure retains (its
armed duration), `fuelOut` marks loop-fuel exhaustion of the embedding
(the Rust loop would keep iterating). -/
inductive SendLoopRes (S : Type) : Type
  | ready (r : Except IoErr (Nat × Nat)) (st : ConnState S)
  | pending (st : ConnState S) (sleep : Option Nat)
  | fuelOut (st : ConnState S)
deriving DecidableEq, Repr

/-- Embedding of the `loop` in the `send` readiness predicate
(`src/hala-net/src/quic/conn_state.rs` lines 144-194): call
`engine.send`; on success run the stream-notify step and return the
size and info; on `Done` fail with `BrokenPipe` when the engine is
closed (waking all), otherwise inspect `timeout()` — a zero timeout
triggers `on_timeout` and another loop iteration, a positive timeout
arms a fresh sleep for exactly that duration (requiring the local
poller) and polls it once, retrying on immediate expiry and otherwise
retaining the sleep and returning `Pending`; no timeout returns
`Pending`; any other engine error is mapped and returned. -/
def sendLoop {S : Type} (api : QuicheApi S) : Nat → ConnState S → SendLoopRes S
  | 0, st => .fuelOut st
  | fuel + 1, st =>
    match api.send st.engine with
    | (.ok n info, e') =>
      .ready (.ok (n, info)) (handleStream api { st with engine := e' })
    | (.done, e') =>
      let st1 := { st with engine := e' }
      if api.isClosed e' then .ready (.error .brokenPipe) (handleClose st1)
      else
        match api.timeout e' with
        | some d =>
          if d = 0 then sendLoop api fuel { st1 with engine := api.onTimeout e' }
          else
            match api.localPoller with
            | .error e => .ready (.error e) st1
            | .ok _ =>
              match sleepFreshPoll d with
              | .Ready _ => sendLoop api fuel { st1 with engine := api.onTimeout e' }
              | .Pending => .pending st1 (some d)
        | none => .pending st1 none
    | (.err c, e') => .ready (.error (into_io_error c)) { st with engine := e' }

/-- Embedding of the `send` readiness predicate
(`src/hala-net/src/quic/conn_state.rs` lines 118-197): on a closed
engine wake all and fail with `BrokenPipe`; otherwise take the sleep
retained by a previous poll — when its poll reports expiry, run
`on_timeout` — and enter the send loop.  `oldSleepPoll` is the oracle
for polling that previously armed sleep. -/
def sendPoll {S : Type} (api : QuicheApi S) (oldSleep : Option Nat)
    (oldSleepPoll : PollR Unit) (fuel : Nat) (st : ConnState S) : SendLoopRes S :=
  if api.isClosed st.engine then .ready (.error .brokenPipe) (handleClose st)
  else
    let st1 :=
      match oldSleep with
      | some _ =>
        match oldSleepPoll with
        | .Ready _ => { st with engine := api.onTimeout st.engine }
        | .Pending => st
      | none => st
    sendLoop api fuel st1

/-! ## Concrete engine instances

Concrete oracle tables over the unit engine state, used to evaluate the
theorems below on closed inputs. -/

/-- The empty mediator state over the unit engine. -/
def emptyConn : ConnState Unit := ⟨(), [], [], [], 0⟩

/-- An engine that reports itself closed on every query. -/
def closedApi : QuicheApi Unit :=
  { isClosed := fun _ => true
    traceId := fun _ => "w"
    send := fun s => (.done, s)
    recv := fun s => (.done, s)
    streamSend := fun s _ _ => (.done, s)
    streamRecv := fun s _ => (.done, s)
    timeout := fun _ => none
    onTimeout := fun s => s
    readable := fun _ => []
    writable := fun _ => []
    localPoller := .ok () }

/-- An open engine whose `send` always reports `Done` with a pending
5-unit timeout. -/
def doneApi : QuicheApi Unit :=
  { isClosed := fun _ => false
    traceId := fun _ => "w"
    send := fun s => (.done, s)
    recv := fun s => (.done, s)
    streamSend := fun s _ _ => (.done, s)
    streamRecv := fun s _ => (.done, s)
    timeout := fun _ => some 5
    onTimeout := fun s => s
    readable := fun _ => []
    writable := fun _ => []
    localPoller := .ok () }

/-- An open engine whose stream operations succeed with zero bytes. -/
def okStreamApi : QuicheApi Unit :=
  { isClosed := fun _ => false
    traceId := fun _ => "w"
    send := fun s => (.ok 0 0, s)
    recv := fun s => (.ok 0, s)
    streamSend := fun s _ _ => (.ok 0, s)
    streamRecv := fun s _ => (.ok 0 false, s)
    timeout := fun _ => none
    onTimeout := fun s => s
    readable := fun _ => []
    writable := fun _ => []
    localPoller := .ok () }

/-- An open engine reporting no readable stream and the single writable
stream `4`. -/
def writableOnlyApi : QuicheApi Unit :=
  { isClosed := fun _ => false
    traceId := fun _ => "w"
    send := fun s => (.ok 0 0, s)
    recv := fun s => (.ok 0, s)
    streamSend := fun s _ _ => (.ok 0, s)
    streamRecv := fun s _ => (.ok 0 false, s)
    timeout := fun _ => none
    onTimeout := fun s => s
    readable := fun _ => []
    writable := fun _ => [4]
    localPoller := .ok () }

/-- An open engine reporting readable stream `1` and writable stream
`2`. -/
def readWriteApi : QuicheApi Unit :=
  { isClosed := fun _ => false
    traceId := fun _ => "w"
    send := fun s => (.ok 0 0, s)
    recv := fun s => (.ok 0, s)
    streamSend := fun s _ _ => (.ok 0, s)
    streamRecv := fun s _ => (.ok 0 false, s)
    timeout := fun _ => none
    onTimeout := fun s => s
    readable := fun _ => [1]
    writable := fun _ => [2]
    localPoller := .ok () }

/-- Invariant of the stream-notify step relative to a base state: every
opened stream either was already opened in the base state or has been
pushed onto `incoming_streams` with an `Accept` notification recorded.
`E` is the (constant) engine state supplying the trace id. -/
def StreamInv {S : Type} (api : QuicheApi S) (E : S) (base st : ConnState S) :
    Prop :=
  ∀ x, x ∈ st.openedStreams →
    x ∈ base.openedStreams ∨
      (x ∈ st.incomingStreams ∧
        QuicConnEvents.Accept (api.traceId E) ∈ st.notified)

/-! ## Theorems -/

/-- C3, counterexample: the claim states the effective OS wait of
`poll_once` is `min(timeout, tick_duration)` when a timeout is given;
with `timeout = 2` and `tick_duration = 1` the code waits `2`, not
`min 2 1 = 1`. -/
theorem c3_counterexample :
    ¬ ((pollOnce (some 2) 1 [] []).osWaitTimeout = min 2 1) := by
  decide

/-- C3, amended: for every call to `poll_once`, the effective OS wait
duration is the given timeout itself when a timeout argument is given
(no minimum with the tick duration is taken), and `tick_duration` when
no timeout is given. -/
theorem c3_effective_wait (tick : Nat) (os : List OsEvent) (ex : List Nat) :
    (∀ t, (pollOnce (some t) tick os ex).osWaitTimeout = t) ∧
    (pollOnce none tick os ex).osWaitTimeout = tick := by
  constructor
  · intro t; rfl
  · rfl

/-- C4, counterexample: the claim states the translated interest
contains `Writable` iff the OS event was writable; for an OS event that
is neither readable nor writable the code reports `Writable`. -/
theorem c4_counterexample :
    ¬ ((eventInterests ⟨0, false, false⟩).writable = false) := by
  decide

/-- C4, amended: for every OS event collected by `poll_once`, the
returned interest contains `Readable` iff the OS event was readable,
and contains `Writable` iff the OS event was writable or was not
readable (an event with neither flag is reported as `Writable`). -/
theorem c4_interest_translation (ev : OsEvent) :
    (eventInterests ev).readable = ev.readable ∧
    (eventInterests ev).writable = (ev.writable || !ev.readable) := by
  obtain ⟨tok, r, w⟩ := ev
  cases r <;> cases w <;>
    simp [eventInterests, Interest.xorI, Interest.orI, Interest.readableBit,
      Interest.writableBit]

/-- C6, counterexample: the claim states
`duration_to_ticks(d, t, round_up = true)` equals `⌈d / t⌉` for all
representable durations; at `d = 2 ^ 32` nanoseconds and `t = 1`
nanosecond the `u32` cast in the round-up test wraps to `0`, so the code
yields `2 ^ 32 + 1` while the ceiling is `2 ^ 32`. -/
theorem c6_counterexample :
    duration_to_ticks (2 ^ 32) 1 true ≠ (2 ^ 32 + 1 - 1) / 1 := by
  decide

/-- Auxiliary: the round-up variant of `duration_to_ticks` as a plain
conditional. -/
theorem duration_to_ticks_round_up (d t : Nat) :
    duration_to_ticks d t true =
      if t * (d / t % 2 ^ 32) < d then d / t + 1 else d / t := by
  simp [duration_to_ticks]

/-- C6, amended: for every duration `d` and tick duration `t > 0` whose
quotient stays below `2 ^ 32` (so the `u32` cast of the tick count is
lossless), `duration_to_ticks d t true` is exactly the ceiling
`(d + t - 1) / t` of `d / t`. -/
theorem c6_duration_to_ticks_ceil (d t : Nat) (ht : 0 < t)
    (hd : d / t < 2 ^ 32) :
    duration_to_ticks d t true = (d + t - 1) / t := by
  have hq : d / t % 2 ^ 32 = d / t := Nat.mod_eq_of_lt hd
  have hmod : t * (d / t) + d % t = d := Nat.div_add_mod d t
  have hrt : d % t < t := Nat.mod_lt d ht
  rw [duration_to_ticks_round_up, hq]
  rcases Nat.eq_zero_or_pos (d % t) with hr | hr
  · have hdt : t * (d / t) = d := by omega
    rw [if_neg (by rw [hdt]; exact lt_irrefl d)]
    have h2 : d + t - 1 = t * (d / t) + (t - 1) := by omega
    rw [h2, Nat.mul_add_div ht, Nat.div_eq_of_lt (show t - 1 < t by omega),
      Nat.add_zero]
  · rw [if_pos (by omega)]
    have h2 : d + t - 1 = t * (d / t + 1) + (d % t - 1) := by
      rw [Nat.mul_add, Nat.mul_one]; omega
    rw [h2, Nat.mul_add_div ht, Nat.div_eq_of_lt (show d % t - 1 < t by omega),
      Nat.add_zero]

/-- C6, witness: the amended theorem at `d = 5`, `t = 2` (quotient `2`,
ceiling `3`). -/
theorem c6_witness :
    0 < 2 ∧ 5 / 2 < 2 ^ 32 ∧ duration_to_ticks 5 2 true = (5 + 2 - 1) / 2 :=
  ⟨by decide, by decide, c6_duration_to_ticks_ceil 5 2 (by decide) (by decide)⟩

/-- C8: registering a `Timeout` handle whose duration is zero is
rejected by the `assert!` guard before the timer is placed into the
wheel: for every handle state with `duration = 0`, the register arm
aborts with the assertion failure and returns no updated wheel. -/
theorem c8_zero_duration_rejected (t : MioTimeoutM) (tick now token : Nat)
    (w : TimeWheelModel) (h : t.duration = 0) :
    registerTimeout t tick now token w = .assertFailed := by
  simp [registerTimeout, h]

/-- C8, witness: a zero-duration timeout handle against a fresh wheel. -/
theorem c8_witness :
    (⟨0, none, none, none⟩ : MioTimeoutM).duration = 0 ∧
    registerTimeout ⟨0, none, none, none⟩ 1000000 0 7 ⟨2048, 0, []⟩ =
      .assertFailed :=
  ⟨rfl, c8_zero_duration_rejected ⟨0, none, none, none⟩ 1000000 0 7 ⟨2048, 0, []⟩ rfl⟩

/-- Auxiliary: once the one-shot slot is occupied, every further
`register_driver` call fails with `PermissionDenied` and the slot keeps
its content. -/
theorem runRegisterSeq_occupied (x : DriverId) (ds : List DriverId) :
    runRegisterSeq (some x) ds =
      (ds.map (fun _ => (.error .permissionDenied : Except IoErr Unit)), some x) := by
  induction ds with
  | nil => rfl
  | cons d ds ih => simp [runRegisterSeq, registerDriver, ih]

/-- C9: driver registration is one-shot: the first `register_driver`
call installs the driver, every subsequent call in a sequence fails with
`PermissionDenied` and leaves the first driver installed, `get_driver`
after the first registration returns the registered instance, and
`get_driver` before any registration fails with `NotFound`. -/
theorem c9_one_shot_registration (d old d2 : DriverId) (ds : List DriverId) :
    registerDriver none d = (.ok (), some d) ∧
    registerDriver (some old) d2 = (.error .permissionDenied, some old) ∧
    (runRegisterSeq none (d :: ds)).1 =
      .ok () :: ds.map (fun _ => .error .permissionDenied) ∧
    getDriver (runRegisterSeq none (d :: ds)).2 = .ok d ∧
    getDriver none = .error .notFound := by
  refine ⟨rfl, rfl, ?_, ?_, rfl⟩
  · simp [runRegisterSeq, registerDriver, runRegisterSeq_occupied]
  · simp [runRegisterSeq, registerDriver, runRegisterSeq_occupied, getDriver]

/-- C10: when the freshly opened TcpListener fd fails to register with
the poller, `bind_with` closes the fd via `fd_close` before returning
the register error, leaving no open handle behind; likewise
`TcpStream::new_with` closes the fd it was given when registration
fails. -/
theorem c10_constructor_atomicity (fd : Nat) (e : IoErr)
    (regRes : Nat → Except IoErr Unit) (h : regRes fd = .error e) :
    tcpListenerBindWith (.ok ()) (.ok fd) regRes =
      (.error e, [.open .tcpListener fd, .registerCmd fd, .close fd]) ∧
    liveAfter (tcpListenerBindWith (.ok ()) (.ok fd) regRes).2 = [] ∧
    tcpStreamNewWith fd (.error e) = (.error e, [.registerCmd fd, .close fd]) := by
  refine ⟨?_, ?_, rfl⟩
  · simp [tcpListenerBindWith, h]
  · simp [tcpListenerBindWith, h, liveAfter]

/-- C10, witness: a register refusal with a concrete error on fd 3. -/
theorem c10_witness :
    (fun _ : Nat => (.error .invalidInput : Except IoErr Unit)) 3 =
      .error .invalidInput ∧
    tcpListenerBindWith (.ok ()) (.ok 3)
        (fun _ => .error .invalidInput) =
      (.error .invalidInput, [.open .tcpListener 3, .registerCmd 3, .close 3]) ∧
    liveAfter (tcpListenerBindWith (.ok ()) (.ok 3)
        (fun _ => .error .invalidInput)).2 = [] ∧
    tcpStreamNewWith 3 (.error .invalidInput) =
      (.error .invalidInput, [.registerCmd 3, .close 3]) :=
  ⟨rfl, c10_constructor_atomicity 3 .invalidInput (fun _ => .error .invalidInput) rfl⟩

/-- C1: no operation on a closed QUIC connection ever returns
`Pending`: whenever the readiness predicate of `send`, `recv`,
`stream_send`, `stream_recv`, `open_stream` or `accept` runs while the
engine reports `is_closed() = true`, the poll result is `Ready` — a
`BrokenPipe` error for the five I/O operations (the first four also
waking all waiters) and `Ready(None)` for `accept`. -/
theorem c1_closed_never_pending {S : Type} (api : QuicheApi S)
    (st : ConnState S) (tid : String) (oldSleep : Option Nat)
    (oldSleepPoll : PollR Unit) (fuel id : Nat) (fin : Bool)
    (h : api.isClosed st.engine = true) :
    sendPoll api oldSleep oldSleepPoll fuel st =
      .ready (.error .brokenPipe) (handleClose st) ∧
    recvPoll api tid st = (.Ready (.error .brokenPipe), handleClose st) ∧
    streamSendPoll api tid st id fin =
      (.Ready (.error .brokenPipe), handleClose st) ∧
    streamRecvPoll api tid st id =
      (.Ready (.error .brokenPipe), handleClose st) ∧
    openStreamPoll api tid st id = (.Ready (.error .brokenPipe), st) ∧
    acceptPoll api st = (.Ready none, st) := by
  refine ⟨?_, ?_, ?_, ?_, ?_, ?_⟩ <;>
    simp [sendPoll, recvPoll, streamSendPoll, streamRecvPoll, openStreamPoll,
      acceptPoll, h]

/-- C1, witness: the closed engine over the empty mediator state. -/
theorem c1_witness :
    closedApi.isClosed emptyConn.engine = true ∧
    sendPoll closedApi none .Pending 1 emptyConn =
      .ready (.error .brokenPipe) (handleClose emptyConn) ∧
    recvPoll closedApi "w" emptyConn =
      (.Ready (.error .brokenPipe), handleClose emptyConn) ∧
    streamSendPoll closedApi "w" emptyConn 0 false =
      (.Ready (.error .brokenPipe), handleClose emptyConn) ∧
    streamRecvPoll closedApi "w" emptyConn 0 =
      (.Ready (.error .brokenPipe), handleClose emptyConn) ∧
    openStreamPoll closedApi "w" emptyConn 0 =
      (.Ready (.error .brokenPipe), emptyConn) ∧
    acceptPoll closedApi emptyConn = (.Ready none, emptyConn) :=
  ⟨rfl, c1_closed_never_pending closedApi emptyConn "w" none .Pending 1 0 false rfl⟩

/-- C2: in the send loop, whenever the engine's `send` returns `Done`
and the connection is not closed: a reported non-zero timeout `d` arms a
sleep for exactly `d` and the poll returns `Pending` retaining that
sleep; a reported zero timeout triggers `on_timeout()` and another loop
iteration; no reported timeout returns `Pending` with no sleep armed. -/
theorem c2_send_done_timeout {S : Type} (api : QuicheApi S)
    (st : ConnState S) (e' : S) (fuel : Nat)
    (hsend : api.send st.engine = (.done, e'))
    (hopen : api.isClosed e' = false)
    (hpoller : api.localPoller = .ok ()) :
    (∀ d, api.timeout e' = some d → d ≠ 0 →
      sendLoop api (fuel + 1) st = .pending { st with engine := e' } (some d)) ∧
    (api.timeout e' = some 0 →
      sendLoop api (fuel + 1) st =
        sendLoop api fuel { st with engine := api.onTimeout e' }) ∧
    (api.timeout e' = none →
      sendLoop api (fuel + 1) st = .pending { st with engine := e' } none) := by
  refine ⟨?_, ?_, ?_⟩
  · intro d htm hd
    simp [sendLoop, hsend, hopen, htm, hd, hpoller, sleepFreshPoll]
  · intro htm
    simp [sendLoop, hsend, hopen, htm]
  · intro htm
    simp [sendLoop, hsend, hopen, htm]

/-- C2, witness: the always-`Done` engine with a pending 5-unit
timeout arms a 5-unit sleep and returns `Pending`. -/
theorem c2_witness :
    doneApi.send emptyConn.engine = (.done, ()) ∧
    doneApi.isClosed () = false ∧
    doneApi.localPoller = .ok () ∧
    (∀ d, doneApi.timeout () = some d → d ≠ 0 →
      sendLoop doneApi 3 emptyConn = .pending { emptyConn with engine := () } (some d)) ∧
    (doneApi.timeout () = some 0 →
      sendLoop doneApi 3 emptyConn =
        sendLoop doneApi 2 { emptyConn with engine := doneApi.onTimeout () }) ∧
    (doneApi.timeout () = none →
      sendLoop doneApi 3 emptyConn = .pending { emptyConn with engine := () } none) :=
  ⟨rfl, rfl, rfl, (c2_send_done_timeout doneApi emptyConn () 2 rfl rfl rfl).1,
    (c2_send_done_timeout doneApi emptyConn () 2 rfl rfl rfl).2.1,
    (c2_send_done_timeout doneApi emptyConn () 2 rfl rfl rfl).2.2⟩

/-- C7: `open_stream` hands out the current seed value, a succeeding
`stream_send` with `fin = true` on that stream id leaves the id absent
from `opened_streams`, and the next `open_stream` allocates exactly
`id + 4` — a strictly greater id — provided the 64-bit seed does not
wrap. -/
theorem c7_open_finish_reopen {S : Type} (api : QuicheApi S)
    (st : ConnState S) (tid : String) (seed n : Nat) (e' : S)
    (hseed : seed + 4 < 2 ^ 64)
    (hopen : api.isClosed st.engine = false)
    (hsend : api.streamSend st.engine seed true = (.ok n, e')) :
    (fetchAdd4 seed).1 = seed ∧
    openStreamPoll api tid st seed = (.Ready (.ok seed), notifyE st (.Send tid)) ∧
    seed ∉
      ((streamSendPoll api tid (notifyE st (.Send tid)) seed true).2).openedStreams ∧
    (fetchAdd4 (fetchAdd4 seed).2).1 = seed + 4 ∧
    seed < (fetchAdd4 (fetchAdd4 seed).2).1 := by
  have hmod : (seed + 4) % 2 ^ 64 = seed + 4 := Nat.mod_eq_of_lt hseed
  refine ⟨rfl, ?_, ?_, ?_, ?_⟩
  · simp [openStreamPoll, hopen]
  · simp [streamSendPoll, notifyE, hopen, hsend, List.mem_filter]
  · simp [fetchAdd4]; omega
  · simp [fetchAdd4]; omega

/-- C7, witness: seed 0 on the open engine with succeeding stream
sends: the finished stream 0 is not opened and the next id is 4. -/
theorem c7_witness :
    0 + 4 < 2 ^ 64 ∧
    okStreamApi.isClosed emptyConn.engine = false ∧
    okStreamApi.streamSend emptyConn.engine 0 true = (.ok 0, ()) ∧
    (fetchAdd4 0).1 = 0 ∧
    openStreamPoll okStreamApi "w" emptyConn 0 =
      (.Ready (.ok 0), notifyE emptyConn (.Send "w")) ∧
    0 ∉
      ((streamSendPoll okStreamApi "w" (notifyE emptyConn (.Send "w")) 0
        true).2).openedStreams ∧
    (fetchAdd4 (fetchAdd4 0).2).1 = 0 + 4 ∧
    0 < (fetchAdd4 (fetchAdd4 0).2).1 :=
  ⟨by decide, rfl, rfl,
    c7_open_finish_reopen okStreamApi emptyConn "w" 0 0 () (by decide) rfl rfl⟩

/-- Auxiliary: `notify` leaves the engine untouched. -/
theorem notifyE_engine {S : Type} (st : ConnState S) (e : QuicConnEvents) :
    (notifyE st e).engine = st.engine := rfl

/-- Auxiliary: `notify` leaves the opened-stream set untouched. -/
theorem notifyE_opened {S : Type} (st : ConnState S) (e : QuicConnEvents) :
    (notifyE st e).openedStreams = st.openedStreams := rfl

/-- Auxiliary: `notify` leaves the incoming queue untouched. -/
theorem notifyE_incoming {S : Type} (st : ConnState S) (e : QuicConnEvents) :
    (notifyE st e).incomingStreams = st.incomingStreams := rfl

/-- Auxiliary: `notify` appends its event to the notification trace. -/
theorem notifyE_notified {S : Type} (st : ConnState S) (e : QuicConnEvents) :
    (notifyE st e).notified = st.notified ++ [e] := rfl

/-- Auxiliary: `handle_accept` leaves the engine untouched. -/
theorem handleAccept_engine {S : Type} (api : QuicheApi S) (st : ConnState S)
    (id : Nat) : (handleAccept api st id).engine = st.engine := by
  simp only [handleAccept]; split <;> rfl

/-- Auxiliary: `handle_accept` never removes an opened stream. -/
theorem handleAccept_opened_mono {S : Type} {api : QuicheApi S}
    {st : ConnState S} {id x : Nat} (h : x ∈ st.openedStreams) :
    x ∈ (handleAccept api st id).openedStreams := by
  simp only [handleAccept]; split
  · exact h
  · simp only [notifyE_opened]; exact List.mem_cons_of_mem _ h

/-- Auxiliary: after `handle_accept` the handled stream is opened. -/
theorem handleAccept_opened_self {S : Type} (api : QuicheApi S)
    (st : ConnState S) (id : Nat) :
    id ∈ (handleAccept api st id).openedStreams := by
  simp only [handleAccept]; split
  · assumption
  · simp only [notifyE_opened]; exact List.mem_cons_self _ _

/-- Auxiliary: `handle_accept` never removes an incoming stream. -/
theorem handleAccept_incoming_mono {S : Type} {api : QuicheApi S}
    {st : ConnState S} {id x : Nat} (h : x ∈ st.incomingStreams) :
    x ∈ (handleAccept api st id).incomingStreams := by
  simp only [handleAccept]; split
  · exact h
  · simp only [notifyE_incoming]; exact List.mem_append_left _ h

/-- Auxiliary: `handle_accept` never drops a recorded notification. -/
theorem handleAccept_notified_mono {S : Type} {api : QuicheApi S}
    {st : ConnState S} {id : Nat} {e : QuicConnEvents} (h : e ∈ st.notified) :
    e ∈ (handleAccept api st id).notified := by
  simp only [handleAccept]; split
  · exact h
  · simp only [notifyE_notified]; exact List.mem_append_left _ h

/-- Auxiliary: `notify` preserves the stream-notify invariant. -/
theorem notifyE_inv {S : Type} {api : QuicheApi S} {E : S}
    {base st : ConnState S} {e : QuicConnEvents}
    (h : StreamInv api E base st) : StreamInv api E base (notifyE st e) := by
  intro x hx
  rcases h x hx with hb | ⟨hinc, hacc⟩
  · exact Or.inl hb
  · exact Or.inr ⟨hinc, List.mem_append_left _ hacc⟩

/-- Auxiliary: `handle_accept` preserves the stream-notify invariant:
a fresh insertion comes with the incoming push and the `Accept`
notification. -/
theorem handleAccept_inv {S : Type} {api : QuicheApi S} {E : S}
    {base st : ConnState S} {id : Nat} (hE : st.engine = E)
    (h : StreamInv api E base st) :
    StreamInv api E base (handleAccept api st id) := by
  simp only [handleAccept]
  split
  · exact h
  · intro x hx
    simp only [notifyE_opened] at hx
    rcases List.mem_cons.mp hx with rfl | hx'
    · refine Or.inr ⟨?_, ?_⟩
      · simp [notifyE]
      · simp [notifyE, hE]
    · rcases h x hx' with hb | ⟨hinc, hacc⟩
      · exact Or.inl hb
      · refine Or.inr ⟨?_, ?_⟩
        · simp [notifyE]; exact Or.inl hinc
        · simp [notifyE]; exact Or.inl hacc

/-- Auxiliary: unfolding of the stream-notify loop on the empty list. -/
theorem streamNotifyFold_nil {S : Type} (api : QuicheApi S)
    (tag : String → Nat → QuicConnEvents) (st : ConnState S) :
    streamNotifyFold api tag [] st = st := rfl

/-- Auxiliary: unfolding of the stream-notify loop on a head element. -/
theorem streamNotifyFold_cons {S : Type} (api : QuicheApi S)
    (tag : String → Nat → QuicConnEvents) (a : Nat) (l : List Nat)
    (st : ConnState S) :
    streamNotifyFold api tag (a :: l) st =
      streamNotifyFold api tag l
        (notifyE (handleAccept api st a) (tag (api.traceId st.engine) a)) := rfl

/-- Auxiliary: the stream-notify loop leaves the engine untouched. -/
theorem streamNotifyFold_engine {S : Type} (api : QuicheApi S)
    (tag : String → Nat → QuicConnEvents) (l : List Nat) (st : ConnState S) :
    (streamNotifyFold api tag l st).engine = st.engine := by
  induction l generalizing st with
  | nil => rfl
  | cons a l ih =>
    rw [streamNotifyFold_cons, ih, notifyE_engine, handleAccept_engine]

/-- Auxiliary: the stream-notify loop never removes an opened stream. -/
theorem streamNotifyFold_opened_mono {S : Type} {api : QuicheApi S}
    {tag : String → Nat → QuicConnEvents} {l : List Nat} {st : ConnState S}
    {x : Nat} (h : x ∈ st.openedStreams) :
    x ∈ (streamNotifyFold api tag l st).openedStreams := by
  induction l generalizing st with
  | nil => exact h
  | cons a l ih =>
    rw [streamNotifyFold_cons]
    exact ih (by simpa only [notifyE_opened] using handleAccept_opened_mono h)

/-- Auxiliary: the stream-notify loop never drops a notification. -/
theorem streamNotifyFold_notified_mono {S : Type} {api : QuicheApi S}
    {tag : String → Nat → QuicConnEvents} {l : List Nat} {st : ConnState S}
    {e : QuicConnEvents} (h : e ∈ st.notified) :
    e ∈ (streamNotifyFold api tag l st).notified := by
  induction l generalizing st with
  | nil => exact h
  | cons a l ih =>
    rw [streamNotifyFold_cons]
    refine ih ?_
    simp only [notifyE_notified]
    exact List.mem_append_left _ (handleAccept_notified_mono h)

/-- Auxiliary: every stream listed for the stream-notify loop ends up
opened. -/
theorem streamNotifyFold_opened_of_mem {S : Type} {api : QuicheApi S}
    {tag : String → Nat → QuicConnEvents} {l : List Nat} {st : ConnState S}
    {id : Nat} (h : id ∈ l) :
    id ∈ (streamNotifyFold api tag l st).openedStreams := by
  induction l generalizing st with
  | nil => cases h
  | cons a l ih =>
    rw [streamNotifyFold_cons]
    rcases List.mem_cons.mp h with rfl | h'
    · exact streamNotifyFold_opened_mono
        (by simpa only [notifyE_opened] using handleAccept_opened_self api st id)
    · exact ih h'

/-- Auxiliary: every stream listed for the stream-notify loop gets its
tag notification. -/
theorem streamNotifyFold_tag_mem {S : Type} {api : QuicheApi S}
    {tag : String → Nat → QuicConnEvents} {l : List Nat} {st : ConnState S}
    {E : S} {id : Nat} (hE : st.engine = E) (h : id ∈ l) :
    tag (api.traceId E) id ∈ (streamNotifyFold api tag l st).notified := by
  induction l generalizing st with
  | nil => cases h
  | cons a l ih =>
    rw [streamNotifyFold_cons]
    rcases List.mem_cons.mp h with rfl | h'
    · refine streamNotifyFold_notified_mono ?_
      simp only [notifyE_notified, hE]
      exact List.mem_append_right _ (List.mem_singleton.mpr rfl)
    · exact ih (by rw [notifyE_engine, handleAccept_engine]; exact hE) h'

/-- Auxiliary: the stream-notify loop preserves the invariant. -/
theorem streamNotifyFold_inv {S : Type} {api : QuicheApi S}
    {tag : String → Nat → QuicConnEvents} {l : List Nat} {st : ConnState S}
    {E : S} {base : ConnState S} (hE : st.engine = E)
    (h : StreamInv api E base st) :
    StreamInv api E base (streamNotifyFold api tag l st) := by
  induction l generalizing st with
  | nil => exact h
  | cons a l ih =>
    rw [streamNotifyFold_cons]
    exact ih (by rw [notifyE_engine, handleAccept_engine]; exact hE)
      (notifyE_inv (handleAccept_inv hE h))

/-- C5, counterexample: the claim restricts insertion into
`incoming_streams` and `Accept` notification to readable stream ids;
with no readable stream and the single writable stream `4` not yet
opened, `handle_stream` nevertheless pushes `4` onto the incoming queue
and notifies `Accept`. -/
theorem c5_counterexample :
    writableOnlyApi.readable emptyConn.engine = [] ∧
    (handleStream writableOnlyApi emptyConn).incomingStreams = [4] ∧
    QuicConnEvents.Accept "w" ∈ (handleStream writableOnlyApi emptyConn).notified := by
  decide

/-- C5, amended: after the stream-notify step, every readable stream id
gets a `StreamRecv` notification and every writable id a `StreamSend`
notification; every readable or writable id ends up in
`opened_streams`; and every readable **or writable** id that was not
already opened is pushed onto `incoming_streams` with an `Accept`
notification (the code runs `handle_accept` for writable ids too). -/
theorem c5_stream_notify {S : Type} (api : QuicheApi S) (st : ConnState S) :
    (∀ id ∈ api.readable st.engine,
      QuicConnEvents.StreamRecv (api.traceId st.engine) id ∈
        (handleStream api st).notified) ∧
    (∀ id ∈ api.writable st.engine,
      QuicConnEvents.StreamSend (api.traceId st.engine) id ∈
        (handleStream api st).notified) ∧
    (∀ id, id ∈ api.readable st.engine ∨ id ∈ api.writable st.engine →
      id ∈ (handleStream api st).openedStreams) ∧
    (∀ id, (id ∈ api.readable st.engine ∨ id ∈ api.writable st.engine) →
      id ∉ st.openedStreams →
      id ∈ (handleStream api st).incomingStreams ∧
        QuicConnEvents.Accept (api.traceId st.engine) ∈
          (handleStream api st).notified) := by
  have hE1 : (streamNotifyFold api .StreamRecv (api.readable st.engine) st).engine
      = st.engine := streamNotifyFold_engine api _ _ st
  have hopened : ∀ id, id ∈ api.readable st.engine ∨ id ∈ api.writable st.engine →
      id ∈ (handleStream api st).openedStreams := by
    intro id hid
    rcases hid with hr | hw
    · exact streamNotifyFold_opened_mono (streamNotifyFold_opened_of_mem hr)
    · exact streamNotifyFold_opened_of_mem hw
  refine ⟨?_, ?_, hopened, ?_⟩
  · intro id hr
    exact streamNotifyFold_notified_mono (streamNotifyFold_tag_mem rfl hr)
  · intro id hw
    exact streamNotifyFold_tag_mem hE1 hw
  · intro id hid hnot
    have hinv0 : StreamInv api st.engine st st := fun x hx => Or.inl hx
    have hinv : StreamInv api st.engine st (handleStream api st) :=
      streamNotifyFold_inv hE1 (streamNotifyFold_inv rfl hinv0)
    rcases hinv id (hopened id hid) with hb | hgood
    · exact absurd hb hnot
    · exact hgood

/-- C5, witness: the engine with readable stream 1 and writable stream
2 over the empty state: both notifications fire, stream 2 is opened,
pushed onto the incoming queue, and `Accept` is notified. -/
theorem c5_witness :
    QuicConnEvents.StreamRecv "w" 1 ∈
      (handleStream readWriteApi emptyConn).notified ∧
    QuicConnEvents.StreamSend "w" 2 ∈
      (handleStream readWriteApi emptyConn).notified ∧
    2 ∈ (handleStream readWriteApi emptyConn).openedStreams ∧
    2 ∈ (handleStream readWriteApi emptyConn).incomingStreams ∧
    QuicConnEvents.Accept "w" ∈ (handleStream readWriteApi emptyConn).notified := by
  have h := c5_stream_notify readWriteApi emptyConn
  refine ⟨h.1 1 (by decide), h.2.1 2 (by decide), h.2.2.1 2 (Or.inr (by decide)),
    (h.2.2.2 2 (Or.inr (by decide)) (by decide)).1,
    (h.2.2.2 2 (Or.inr (by decide)) (by decide)).2⟩

end Hala
